import Mathlib

/-!
# Verification of `linux_assistant.py`

A shallow embedding of the parts of `LinuxAssistant` that the specification's
testable properties are about:

* the two bounded history buffers (`collections.deque` with `maxlen=60`),
* the ring-gauge geometry produced by `matplotlib`'s `pie` call,
* the command-runner worker (`_run_cmd`) and its output pane,
* the file/directory helpers (`op_create_file`, `op_delete_file`, `op_delete_dir`),
* the self-rescheduling refresh loop (`_update_chart` plus the two `after` calls).

Metric values are modelled as rationals (`ℚ`), filesystem paths as `String`,
and the outcome of each external call (`psutil` reads, `subprocess.run`) as an
explicit input of the embedded function, so that both the success and the
exceptional paths of the Python code are visible.
-/

/-! ## History buffers: `deque(maxlen=60)` -/

/-- One `append` on a Python `collections.deque` with `maxlen = cap`:
the element is appended on the right and, if the deque was full, the
leftmost (oldest) element is discarded.  Implemented as: append, then drop
from the left whatever exceeds the capacity. -/
def dequeAppend (cap : ℕ) (xs : List ℚ) (v : ℚ) : List ℚ :=
  let ys := xs ++ [v]
  ys.drop (ys.length - cap)

/-- The initial value of `self.cpu_history` and `self.ram_history`:
`deque([0]*60, maxlen=60)`, i.e. sixty zero samples. -/
def initHistory : List ℚ := List.replicate 60 0

theorem dequeAppend_length (cap : ℕ) (xs : List ℚ) (v : ℚ) :
    (dequeAppend cap xs v).length = min (xs.length + 1) cap := by
  simp [dequeAppend]
  omega

/-- Closed form of a sequence of deque appends: starting from a buffer within
capacity, the result is the suffix of `xs ++ samples` that fits. -/
theorem foldl_dequeAppend (cap : ℕ) (samples : List ℚ) :
    ∀ xs : List ℚ, xs.length ≤ cap →
      List.foldl (dequeAppend cap) xs samples =
        (xs ++ samples).drop (xs.length + samples.length - cap) := by
  induction samples with
  | nil =>
    intro xs h
    simp [Nat.sub_eq_zero_of_le h]
  | cons s ss ih =>
    intro xs h
    rw [List.foldl_cons]
    have hlen : (dequeAppend cap xs s).length ≤ cap := by
      rw [dequeAppend_length]; omega
    rw [ih _ hlen]
    have hd : dequeAppend cap xs s = (xs ++ [s]).drop (xs.length + 1 - cap) := by
      simp [dequeAppend]
    rw [hd]
    have hL : ((xs ++ [s]).drop (xs.length + 1 - cap)).length = min (xs.length + 1) cap := by
      simp
      omega
    rw [hL]
    rw [← List.drop_append_of_le_length (by simp)]
    rw [List.drop_drop]
    have harr : (xs ++ [s]) ++ ss = xs ++ s :: ss := by simp
    rw [harr]
    congr 1
    simp only [List.length_cons]
    omega

/-- **C2.** After any sequence of appends to a buffer that is within its
60-element capacity, the length never exceeds 60; and appending 61 samples
leaves exactly the last 60 of them, in insertion order (FIFO eviction: the
oldest of the 61 is gone). -/
theorem C2_history_bounded_fifo (buf samples : List ℚ) (hbuf : buf.length ≤ 60) :
    (List.foldl (dequeAppend 60) buf samples).length ≤ 60 ∧
    (samples.length = 61 →
      List.foldl (dequeAppend 60) buf samples = samples.drop 1) := by
  constructor
  · rw [foldl_dequeAppend 60 samples buf hbuf]
    simp
    omega
  · intro h61
    rw [foldl_dequeAppend 60 samples buf hbuf, h61]
    have : buf.length + 61 - 60 = buf.length + 1 := by omega
    rw [this, List.drop_append]

theorem C2_history_bounded_fifo_witness :
    (List.foldl (dequeAppend 60) (List.replicate 60 (0:ℚ))
        (List.map (fun n => (n:ℚ)) (List.range 61))).length ≤ 60 ∧
    ((List.map (fun n => (n:ℚ)) (List.range 61)).length = 61 →
      List.foldl (dequeAppend 60) (List.replicate 60 (0:ℚ))
          (List.map (fun n => (n:ℚ)) (List.range 61)) =
        (List.map (fun n => (n:ℚ)) (List.range 61)).drop 1) :=
  C2_history_bounded_fifo (List.replicate 60 (0:ℚ)) _ (by simp)

/-- **C9.** The buffers start as sixty zero samples, every state reachable by
appends has length exactly 60, and the first `k ≤ 60` appends evict `k`
initial zeros: the buffer is then `60 - k` zeros followed by the `k` samples
in order. -/
theorem C9_prefilled_history (samples : List ℚ) (hk : samples.length ≤ 60) :
    initHistory = List.replicate 60 (0:ℚ) ∧
    (∀ more : List ℚ, (List.foldl (dequeAppend 60) initHistory more).length = 60) ∧
    List.foldl (dequeAppend 60) initHistory samples =
      List.replicate (60 - samples.length) (0:ℚ) ++ samples := by
  refine ⟨rfl, ?_, ?_⟩
  · intro more
    rw [foldl_dequeAppend 60 more initHistory (by simp [initHistory])]
    simp [initHistory]
    omega
  · rw [foldl_dequeAppend 60 samples initHistory (by simp [initHistory])]
    have h1 : initHistory.length + samples.length - 60 = samples.length := by
      simp [initHistory]
    rw [h1, initHistory]
    rw [List.drop_append_of_le_length (by simp [hk])]
    rw [List.drop_replicate]

theorem C9_prefilled_history_witness :
    ([(37:ℚ), 42].length ≤ 60) ∧
    (initHistory = List.replicate 60 (0:ℚ) ∧
     (∀ more : List ℚ, (List.foldl (dequeAppend 60) initHistory more).length = 60) ∧
     List.foldl (dequeAppend 60) initHistory [(37:ℚ), 42] =
       List.replicate (60 - [(37:ℚ), 42].length) (0:ℚ) ++ [(37:ℚ), 42]) :=
  ⟨by simp, C9_prefilled_history [(37:ℚ), 42] (by simp)⟩

/-! ## Filesystem model for the file/directory helpers

`op_create_file`, `op_delete_file` and `op_delete_dir` each ask the user for a
name (`simpledialog.askstring`, which yields `none` on cancel) and then act on
the filesystem.  The filesystem is a list of regular files (path, contents)
and a list of directories; OS calls that can raise return `Except`, and each
helper returns the new filesystem, the trace of performed effects, and the
exception that propagated out of it, if any. -/

structure FS where
  files : List (String × String)
  dirs : List String
deriving DecidableEq

def isfile (fs : FS) (p : String) : Bool := (fs.files.map Prod.fst).contains p

def isdir (fs : FS) (p : String) : Bool := fs.dirs.contains p

/-- `p` is strictly inside directory `d` (compared on characters). -/
def isUnder (d p : String) : Bool := (d.data ++ ['/']).isPrefixOf p.data

def dirNonEmpty (fs : FS) (d : String) : Bool :=
  (fs.files.map Prod.fst ++ fs.dirs).any (isUnder d)

inductive OSErr where
  | notEmpty (p : String)
  | isADirectory (p : String)
  | noSuchEntry (p : String)
deriving DecidableEq

/-- The observable side effects of a helper, in order: the OS removal calls it
reaches (whether or not they succeed) and the log/dialog actions it performs. -/
inductive Eff where
  | removeFile (p : String)
  | removeDir (p : String)
  | logMsg (m : String)
  | showInfo (title m : String)
deriving DecidableEq

/-- `os.remove`: deletes a regular file; raises on a directory or missing path. -/
def osRemove (fs : FS) (p : String) : Except OSErr FS :=
  if isdir fs p then .error (.isADirectory p)
  else if isfile fs p then .ok { fs with files := fs.files.filter (fun q => q.1 != p) }
  else .error (.noSuchEntry p)

/-- `os.rmdir`: deletes a directory only if it is empty; raises `ENOTEMPTY`
otherwise, touching nothing. -/
def osRmdir (fs : FS) (p : String) : Except OSErr FS :=
  if !isdir fs p then .error (.noSuchEntry p)
  else if dirNonEmpty fs p then .error (.notEmpty p)
  else .ok { fs with dirs := fs.dirs.filter (fun q => q != p) }

/-- `open(p, 'a').close()`: append-open creates the file when absent and
leaves an existing file untouched; raises when `p` is a directory. -/
def osOpenAppendClose (fs : FS) (p : String) : Except OSErr FS :=
  if isdir fs p then .error (.isADirectory p)
  else if isfile fs p then .ok fs
  else .ok { fs with files := (p, "") :: fs.files }

/-- Python truthiness of the dialog result: `None` and `""` are falsy. -/
def truthy : Option String → Bool
  | none => false
  | some s => s != ""

/-- `op_create_file`: `if p: open(p,'a').close(); log; messagebox`. -/
def op_create_file (fs : FS) (p : Option String) : FS × List Eff × Option OSErr :=
  match p with
  | none => (fs, [], none)
  | some s =>
    if s != "" then
      match osOpenAppendClose fs s with
      | .ok fs' => (fs', [.logMsg ("File created: " ++ s), .showInfo "Created" s], none)
      | .error e => (fs, [], some e)
    else (fs, [], none)

/-- `op_delete_file`: `if p and os.path.isfile(p): os.remove(p); log; messagebox`. -/
def op_delete_file (fs : FS) (p : Option String) : FS × List Eff × Option OSErr :=
  match p with
  | none => (fs, [], none)
  | some s =>
    if (s != "") && isfile fs s then
      match osRemove fs s with
      | .ok fs' => (fs', [.removeFile s, .logMsg ("File deleted: " ++ s), .showInfo "Deleted" s], none)
      | .error e => (fs, [.removeFile s], some e)
    else (fs, [], none)

/-- `op_delete_dir`: `if p and os.path.isdir(p): os.rmdir(p); log; messagebox`. -/
def op_delete_dir (fs : FS) (p : Option String) : FS × List Eff × Option OSErr :=
  match p with
  | none => (fs, [], none)
  | some s =>
    if (s != "") && isdir fs s then
      match osRmdir fs s with
      | .ok fs' => (fs', [.removeDir s, .logMsg ("Directory deleted: " ++ s), .showInfo "Deleted" s], none)
      | .error e => (fs, [.removeDir s], some e)
    else (fs, [], none)

/-- A directory `d` containing one regular file `d/x`. -/
def fsC5 : FS := ⟨[("d/x", "hi")], ["d"]⟩

/-- **C5 counterexample.** On a directory `d` that contains the file `d/x`,
`op_delete_dir` reaches `os.rmdir`, which raises `ENOTEMPTY`; the exception
propagates out of the helper (third component `some …`), contradicting the
claim that no unhandled exception is raised.  Nothing is deleted. -/
theorem C5_counterexample :
    isdir fsC5 "d" = true ∧ dirNonEmpty fsC5 "d" = true ∧
    op_delete_dir fsC5 (some "d") = (fsC5, [Eff.removeDir "d"], some (OSErr.notEmpty "d")) := by
  refine ⟨rfl, rfl, ?_⟩
  rfl

/-- **C5 (amended).** Invoking the delete-directory helper on a non-empty
directory deletes nothing (the filesystem is returned unchanged, so every
contained file survives) and does not recurse (the only removal call reached
is `rmdir` on the directory itself) — but `os.rmdir`'s `OSError` propagates
out of the helper uncaught. -/
theorem C5_nonempty_dir_fails (fs : FS) (d : String) (hne : d ≠ "")
    (hd : isdir fs d = true) (hcont : dirNonEmpty fs d = true) :
    op_delete_dir fs (some d) = (fs, [Eff.removeDir d], some (OSErr.notEmpty d)) := by
  simp [op_delete_dir, osRmdir, hne, hd, hcont]

theorem C5_nonempty_dir_fails_witness :
    ("d" ≠ "" ∧ isdir fsC5 "d" = true ∧ dirNonEmpty fsC5 "d" = true) ∧
    op_delete_dir fsC5 (some "d") = (fsC5, [Eff.removeDir "d"], some (OSErr.notEmpty "d")) :=
  ⟨⟨by decide, rfl, rfl⟩, C5_nonempty_dir_fails fsC5 "d" (by decide) rfl rfl⟩

/-- **C7.** The delete-file helper is a no-op (state unchanged, no effect at
all) whenever the dialog result is falsy (cancelled or empty name) or the
path is not an existing regular file — in particular on directories and on
missing paths; and, for every state and input, the `os.remove` call is
reached only when the name was given and names an existing regular file. -/
theorem C7_delete_file_safe (fs : FS) (p : Option String)
    (h : truthy p = false ∨ isfile fs (p.getD "") = false) :
    op_delete_file fs p = (fs, [], none) ∧
    ∀ (fs2 : FS) (q : Option String) (s : String),
      Eff.removeFile s ∈ (op_delete_file fs2 q).2.1 →
        q = some s ∧ isfile fs2 s = true := by
  constructor
  · cases p with
    | none => rfl
    | some s =>
      rcases h with h | h
      · simp [truthy] at h
        simp [op_delete_file, h]
      · simp at h
        simp [op_delete_file, h]
  · intro fs2 q s hmem
    cases q with
    | none => simp [op_delete_file] at hmem
    | some t =>
      by_cases hc : ((t != "") && isfile fs2 t) = true
      · simp only [Bool.and_eq_true, bne_iff_ne, ne_eq] at hc
        by_cases hdr : isdir fs2 t = true
        · simp [op_delete_file, osRemove, hc.1, hc.2, hdr] at hmem
          simp [hmem, hc.2]
        · simp [op_delete_file, osRemove, hc.1, hc.2, hdr] at hmem
          simp [hmem, hc.2]
      · simp [op_delete_file, hc] at hmem

theorem C7_delete_file_safe_witness :
    (truthy (some "d") = false ∨ isfile fsC5 "d" = false) ∧
    (op_delete_file fsC5 (some "d") = (fsC5, [], none) ∧
     ∀ (fs2 : FS) (q : Option String) (s : String),
       Eff.removeFile s ∈ (op_delete_file fs2 q).2.1 →
         q = some s ∧ isfile fs2 s = true) :=
  ⟨Or.inr rfl, C7_delete_file_safe fsC5 (some "d") (Or.inr rfl)⟩

/-- **C10.** The create-file helper opens in append mode and closes: when the
path is already a regular file, the filesystem is unchanged (the file keeps
its contents) and only the log/dialog actions happen; when the path does not
exist, a new empty file appears and nothing else changes. -/
theorem C10_create_file_frame (fs : FS) (p : String) (hp : p ≠ "")
    (hnd : isdir fs p = false) :
    (isfile fs p = true →
      op_create_file fs (some p) =
        (fs, [Eff.logMsg ("File created: " ++ p), Eff.showInfo "Created" p], none)) ∧
    (isfile fs p = false →
      op_create_file fs (some p) =
        ({ fs with files := (p, "") :: fs.files },
         [Eff.logMsg ("File created: " ++ p), Eff.showInfo "Created" p], none)) := by
  constructor
  · intro hf
    simp [op_create_file, osOpenAppendClose, hp, hnd, hf]
  · intro hf
    simp [op_create_file, osOpenAppendClose, hp, hnd, hf]

/-- An existing regular file `a.txt` with contents `"hello"`. -/
def fsC10 : FS := ⟨[("a.txt", "hello")], []⟩

theorem C10_create_file_frame_witness :
    ("a.txt" ≠ "" ∧ isdir fsC10 "a.txt" = false) ∧
    ((isfile fsC10 "a.txt" = true →
      op_create_file fsC10 (some "a.txt") =
        (fsC10, [Eff.logMsg ("File created: " ++ "a.txt"), Eff.showInfo "Created" "a.txt"], none)) ∧
     (isfile fsC10 "a.txt" = false →
      op_create_file fsC10 (some "a.txt") =
        ({ fsC10 with files := ("a.txt", "") :: fsC10.files },
         [Eff.logMsg ("File created: " ++ "a.txt"), Eff.showInfo "Created" "a.txt"], none))) :=
  ⟨⟨by decide, rfl⟩, C10_create_file_frame fsC10 "a.txt" (by decide) rfl⟩

/-! ## Command runner (`_run_cmd`)

The worker thread clears the output pane, echoes the command, runs it through
`subprocess.run(cmd, shell=True, capture_output=True, text=True)`, and inserts
the captured output — stdout, falling back to stderr (`res.stdout or
res.stderr or ""`) — or an `Error: …` line when the subprocess call itself
raised.  The subprocess outcome is an explicit input of the embedding. -/

structure CompletedProcess where
  stdout : String
  stderr : String
  returncode : Int
deriving DecidableEq

/-- Python `a or b` on strings: `b` when `a` is empty. -/
def strOr (a b : String) : String := if a = "" then b else a

/-- `self.term.delete('1.0', 'end')`: the pane is emptied whatever it held. -/
def termDelete (_prior : String) : String := ""

/-- The pane content produced by the `_run_cmd` worker, given the prior pane
content and the outcome of the `subprocess.run` call. -/
def run_cmd_pane (prior cmd : String) (outcome : Except String CompletedProcess) : String :=
  let t := termDelete prior
  let t := t ++ "$ " ++ cmd ++ "\n"
  match outcome with
  | .ok res => t ++ strOr (strOr res.stdout res.stderr) "" ++ "\n"
  | .error e => t ++ "Error: " ++ e ++ "\n"

/-- A host with a POSIX shell: which command lines resolve, and the
(stdout, stderr) of those that do. -/
structure ShellHost where
  present : String → Bool
  runOut : String → String × String

/-- `subprocess.run(cmd, shell=True, capture_output=True, text=True)`: the
spawned executable is the shell itself, so a non-existent command name does
not raise — the shell writes `cmd: not found` to stderr and exits 127, and a
`CompletedProcess` is returned either way. -/
def subprocessRun (host : ShellHost) (cmd : String) : Except String CompletedProcess :=
  if host.present cmd then
    .ok ⟨(host.runOut cmd).1, (host.runOut cmd).2, 0⟩
  else
    .ok ⟨"", "/bin/sh: 1: " ++ cmd ++ ": not found", 127⟩

/-- Split a character list at newlines. -/
def splitLines : List Char → List (List Char)
  | [] => [[]]
  | c :: rest =>
    match splitLines rest with
    | [] => [[]]
    | l :: ls => if c = '\n' then [] :: l :: ls else (c :: l) :: ls

/-- Does some line of the pane start with `Error: `? -/
def hasErrorLine (s : String) : Bool :=
  (splitLines s.data).any (fun l => "Error: ".data.isPrefixOf l)

/-- A host on which no command resolves. -/
def hostC4 : ShellHost := ⟨fun _ => false, fun _ => ("", "")⟩

/-- **C4 counterexample.** For the non-existent command `frobnicate`,
`subprocess.run` with `shell=True` does not raise: it completes with exit
code 127 and the shell's not-found message on stderr, so the worker's
`except` branch is never taken and no line of the pane starts with
`Error: `, contradicting the claim. -/
theorem C4_counterexample :
    subprocessRun hostC4 "frobnicate" =
      .ok ⟨"", "/bin/sh: 1: frobnicate: not found", 127⟩ ∧
    hasErrorLine (run_cmd_pane "old content" "frobnicate"
      (subprocessRun hostC4 "frobnicate")) = false := by
  exact ⟨rfl, by decide⟩

/-- **C4 (amended).** Given a non-existent command, the subprocess call
completes without raising (exit 127, not-found message on stderr), and the
pane shows the shell's error text through the stdout→stderr fallback rather
than an `Error: …` line; the worker finishes normally. -/
theorem C4_not_found_fallback (host : ShellHost) (prior cmd : String)
    (h : host.present cmd = false) :
    subprocessRun host cmd =
      .ok ⟨"", "/bin/sh: 1: " ++ cmd ++ ": not found", 127⟩ ∧
    run_cmd_pane prior cmd (subprocessRun host cmd) =
      "$ " ++ cmd ++ "\n" ++ ("/bin/sh: 1: " ++ cmd ++ ": not found") ++ "\n" := by
  have hs : subprocessRun host cmd =
      .ok ⟨"", "/bin/sh: 1: " ++ cmd ++ ": not found", 127⟩ := by
    simp [subprocessRun, h]
  refine ⟨hs, ?_⟩
  rw [hs]
  have hne : ("/bin/sh: 1: " ++ cmd ++ ": not found") ≠ "" := by
    simp [String.ext_iff]
  simp [run_cmd_pane, termDelete, strOr, hne]

theorem C4_not_found_fallback_witness :
    hostC4.present "frobnicate" = false ∧
    (subprocessRun hostC4 "frobnicate" =
      .ok ⟨"", "/bin/sh: 1: " ++ "frobnicate" ++ ": not found", 127⟩ ∧
     run_cmd_pane "old content" "frobnicate" (subprocessRun hostC4 "frobnicate") =
      "$ " ++ "frobnicate" ++ "\n" ++ ("/bin/sh: 1: " ++ "frobnicate" ++ ": not found") ++ "\n") :=
  ⟨rfl, C4_not_found_fallback hostC4 "old content" "frobnicate" rfl⟩

/-- **C6.** For every run whose subprocess call completes, the pane afterwards
is exactly `$ <cmd>\n` followed by the captured stdout and a newline, with
stderr substituted when stdout is empty — and the result never depends on the
pane's prior content (each run overwrites it entirely). -/
theorem C6_terminal_overwrite (prior cmd : String) (res : CompletedProcess) :
    run_cmd_pane prior cmd (.ok res) =
      "$ " ++ cmd ++ "\n" ++ (if res.stdout = "" then res.stderr else res.stdout) ++ "\n" ∧
    ∀ (prior2 : String) (o : Except String CompletedProcess),
      run_cmd_pane prior cmd o = run_cmd_pane prior2 cmd o := by
  constructor
  · by_cases h1 : res.stdout = ""
    · by_cases h2 : res.stderr = "" <;>
        simp [run_cmd_pane, termDelete, strOr, h1, h2]
    · simp [run_cmd_pane, termDelete, strOr, h1]
  · intro prior2 o
    rfl

/-! ## Ring-gauge geometry (`ax.pie` in `_update_chart`) -/

structure Theme where
  bg : String
  panel : String
  fg : String
  colors : List String
deriving DecidableEq

/-- The fixed theme catalog. -/
def themes : List (String × Theme) :=
  [("Dark",   ⟨"#1e1e2e", "#2e2e3e", "#d8dee9", ["#88c0d0", "#81a1c1", "#bf616a"]⟩),
   ("Light",  ⟨"#f0f0f0", "#ffffff", "#2e3440", ["#5e81ac", "#a3be8c", "#b48ead"]⟩),
   ("Hacker", ⟨"#000000", "#101010", "#00ff00", ["#00ff00", "#00cc00", "#009900"]⟩),
   ("Glass",  ⟨"#e0f7fa", "#ffffff", "#37474f", ["#00838f", "#4db6ac", "#006064"]⟩)]

/-- `matplotlib` pie fractions: the values are normalised by their sum when
the sum exceeds 1, otherwise taken as fractions directly. -/
def pieFracs (vals : List ℚ) : List ℚ :=
  if 1 < vals.sum then vals.map (fun v => v / vals.sum) else vals

/-- The wedges' angular extents `(theta1, theta2)` in degrees, drawn
counterclockwise from `start`, each wedge sweeping `360 ·` its fraction. -/
def pieWedgesAux (start : ℚ) : List ℚ → List (ℚ × ℚ)
  | [] => []
  | f :: fs => (start, start + 360 * f) :: pieWedgesAux (start + 360 * f) fs

def pieWedges (vals : List ℚ) (startangle : ℚ) : List (ℚ × ℚ) :=
  pieWedgesAux startangle (pieFracs vals)

/-- The wedge width `size = 0.3` of the concentric rings. -/
def ringSize : ℚ := 0.3

/-- Ring `i`'s wedges: `ax.pie([val, 100-val], radius=1-i*size,
colors=[col, th['panel']], startangle=90)`. -/
def gaugeWedges (v : ℚ) : List (ℚ × ℚ) := pieWedges [v, 100 - v] 90

/-- The two wedge colors of ring `i`: the metric's accent color, then the
panel color for the remainder. -/
def gaugeColors (th : Theme) (i : ℕ) : List String := [th.colors.getD i "", th.panel]

/-- `np.deg2rad`. -/
noncomputable def deg2rad (d : ℚ) : ℝ := (d : ℝ) * Real.pi / 180

/-- The percentage label position of ring `i` as the code computes it:
`ang = (wedges[0].theta2 + wedges[0].theta1) / 2`, then
`(0.6·(1-i·size)·cos(deg2rad ang), 0.6·(1-i·size)·sin(deg2rad ang))`. -/
noncomputable def labelPos (i : ℕ) (v : ℚ) : ℝ × ℝ :=
  let w := (gaugeWedges v).headD (0, 0)
  let ang := (w.2 + w.1) / 2
  ((((0.6 : ℚ) * (1 - (i : ℚ) * ringSize) : ℚ) : ℝ) * Real.cos (deg2rad ang),
   (((0.6 : ℚ) * (1 - (i : ℚ) * ringSize) : ℚ) : ℝ) * Real.sin (deg2rad ang))

/-- The label position as the spec words it: `0.6 · radius · (cos, sin)` of
the mid-angle of the filled arc, whose extent is `[90°, 90° + 3.6·v]`. -/
noncomputable def specLabelPos (i : ℕ) (v : ℚ) : ℝ × ℝ :=
  let mid : ℚ := (90 + (90 + 3.6 * v)) / 2
  ((((0.6 : ℚ) * (1 - (i : ℚ) * ringSize) : ℚ) : ℝ) * Real.cos (deg2rad mid),
   (((0.6 : ℚ) * (1 - (i : ℚ) * ringSize) : ℚ) : ℝ) * Real.sin (deg2rad mid))

/-- **C3.** For every metric value `v ∈ [0,100]`, the ring's pie call draws a
filled wedge starting at 90° sweeping `3.6·v` degrees, then a remainder wedge
sweeping `360 − 3.6·v` degrees whose color is the panel color, and the label
sits at `0.6 · radius · (cos, sin)` of the filled arc's angular midpoint. -/
theorem C3_gauge_geometry (th : Theme) (i : ℕ) (v : ℚ) (h0 : 0 ≤ v) (h1 : v ≤ 100) :
    gaugeWedges v =
      [(90, 90 + 3.6 * v), (90 + 3.6 * v, (90 + 3.6 * v) + (360 - 3.6 * v))] ∧
    (gaugeColors th i)[1]? = some th.panel ∧
    labelPos i v = specLabelPos i v := by
  have hsum : ([v, 100 - v] : List ℚ).sum = 100 := by simp
  have hfr : pieFracs [v, 100 - v] = [v / 100, (100 - v) / 100] := by
    rw [pieFracs, hsum]
    norm_num
  have hw : gaugeWedges v =
      [(90, 90 + 360 * (v / 100)),
       (90 + 360 * (v / 100), 90 + 360 * (v / 100) + 360 * ((100 - v) / 100))] := by
    rw [gaugeWedges, pieWedges, hfr]
    rfl
  refine ⟨?_, rfl, ?_⟩
  · rw [hw]
    have e2 : (90 : ℚ) + 360 * (v / 100) + 360 * ((100 - v) / 100) =
        (90 + 3.6 * v) + (360 - 3.6 * v) := by ring
    rw [e2]
    have e1 : (360 : ℚ) * (v / 100) = 3.6 * v := by ring
    rw [e1]
  · rw [labelPos, specLabelPos, hw]
    have hang : (((90 + 360 * (v / 100)) + 90) / 2 : ℚ) = (90 + (90 + 3.6 * v)) / 2 := by
      ring
    simp only [List.headD_cons]
    rw [hang]

theorem C3_gauge_geometry_witness :
    ((0 : ℚ) ≤ 50 ∧ (50 : ℚ) ≤ 100) ∧
    (gaugeWedges 50 =
      [(90, 90 + 3.6 * 50), (90 + 3.6 * 50, (90 + 3.6 * 50) + (360 - 3.6 * 50))] ∧
     (gaugeColors ⟨"#000000", "#101010", "#00ff00", ["#00ff00", "#00cc00", "#009900"]⟩ 0)[1]? =
       some "#101010" ∧
     labelPos 0 50 = specLabelPos 0 50) :=
  ⟨⟨by norm_num, by norm_num⟩,
   C3_gauge_geometry ⟨"#000000", "#101010", "#00ff00", ["#00ff00", "#00cc00", "#009900"]⟩
     0 50 (by norm_num) (by norm_num)⟩

/-! ## The refresh loop (`_update_chart` and the two `after` calls)

`__init__` runs `self.after(500, self._update_chart)`; `_update_chart` reads
the three metrics with `psutil` (any of which can raise), redraws, appends to
the histories, and *as its final statement* runs
`self.after(1000, self._update_chart)`.  The three read outcomes for a tick
are an explicit input (`Env`); a raising read makes the embedded tick an
`Except.error`, in which case nothing after the raising statement runs — in
particular no re-scheduling happens. -/

structure Env where
  cpuRead : Except String ℚ
  ramRead : Except String ℚ
  diskRead : Except String ℚ

/-- All three `psutil` reads of this tick succeed. -/
def allOk (e : Env) : Bool :=
  (match e.cpuRead with | .ok _ => true | .error _ => false) &&
  (match e.ramRead with | .ok _ => true | .error _ => false) &&
  (match e.diskRead with | .ok _ => true | .error _ => false)

structure LoopState where
  cpu_history : List ℚ
  ram_history : List ℚ
deriving DecidableEq

/-- Rendering / scheduling actions a tick performs, in order. -/
inductive UIAct where
  | drawRing (i : ℕ) (v : ℚ)
  | drawChart (cpu ram : List ℚ)
  | schedule (ms : ℕ)
deriving DecidableEq

/-- One tick of `_update_chart`. -/
def update_chart (env : Env) (st : LoopState) :
    Except String (LoopState × List UIAct) := do
  let cpu ← env.cpuRead
  let ram ← env.ramRead
  let disk ← env.diskRead
  let st' : LoopState :=
    ⟨dequeAppend 60 st.cpu_history cpu, dequeAppend 60 st.ram_history ram⟩
  .ok (st', [.drawRing 0 cpu, .drawRing 1 ram, .drawRing 2 disk,
             .drawChart st'.cpu_history st'.ram_history, .schedule 1000])

/-- The state at start-up: both histories hold sixty zeros. -/
def initLoopState : LoopState := ⟨initHistory, initHistory⟩

/-- `runLoop envs st0 n`: the pending tick `n`, as `some (t, st)` with `t` its
scheduled firing time in milliseconds after start-up — or `none` when the
loop is dead because an earlier tick aborted before re-scheduling.  Tick 0 is
scheduled by `__init__` at 500 ms; each tick that completes schedules the
next 1000 ms later. -/
def runLoop (envs : ℕ → Env) (st0 : LoopState) : ℕ → Option (ℕ × LoopState)
  | 0 => some (500, st0)
  | n + 1 =>
    match runLoop envs st0 n with
    | none => none
    | some (t, st) =>
      match update_chart (envs n) st with
      | .ok (st', _) => some (t + 1000, st')
      | .error _ => none

/-- A tick on which `psutil.cpu_percent()` raises. -/
def envFail : Env := ⟨.error "OSError", .ok 0, .ok 0⟩

/-- An uneventful tick: all three reads succeed. -/
def envOk : Env := ⟨.ok 12, .ok 34, .ok 56⟩

/-- **C1 (divergence).** When the CPU read of a tick raises, `_update_chart`
aborts with the exception — the metric is not skipped or zeroed, nothing is
drawn, and the final `self.after(1000, …)` statement is never reached, so
after one such tick the refresh loop is dead (`runLoop … 1 = none`). -/
theorem C1_tick_aborts :
    update_chart envFail initLoopState = .error "OSError" ∧
    runLoop (fun _ => envFail) initLoopState 1 = none :=
  ⟨rfl, rfl⟩

/-- **C8.** As long as every tick's metric reads succeed, tick `n` is pending
at time `500 + 1000·n` ms for every `n`: the first tick fires after the
500 ms warm-up, each later tick is scheduled 1000 ms after the previous one,
and the re-scheduling never stops — the model has no cancellation operation
at all, so only killing the process ends the loop. -/
theorem C8_refresh_schedule (envs : ℕ → Env) (st0 : LoopState)
    (h : ∀ n, allOk (envs n) = true) :
    ∀ n, ∃ st, runLoop envs st0 n = some (500 + 1000 * n, st) := by
  intro n
  induction n with
  | zero => exact ⟨st0, by simp [runLoop]⟩
  | succ k ih =>
    obtain ⟨st, hst⟩ := ih
    have hok := h k
    obtain ⟨c, hc⟩ : ∃ c, (envs k).cpuRead = .ok c := by
      cases hx : (envs k).cpuRead with
      | ok c => exact ⟨c, rfl⟩
      | error e => rw [allOk, hx] at hok; simp at hok
    obtain ⟨r, hr⟩ : ∃ r, (envs k).ramRead = .ok r := by
      cases hx : (envs k).ramRead with
      | ok r => exact ⟨r, rfl⟩
      | error e => rw [allOk, hx] at hok; simp at hok
    obtain ⟨d, hd⟩ : ∃ d, (envs k).diskRead = .ok d := by
      cases hx : (envs k).diskRead with
      | ok d => exact ⟨d, rfl⟩
      | error e => rw [allOk, hx] at hok; simp at hok
    refine ⟨⟨dequeAppend 60 st.cpu_history c, dequeAppend 60 st.ram_history r⟩, ?_⟩
    have ht : 500 + 1000 * k + 1000 = 500 + 1000 * (k + 1) := by ring
    simp [runLoop, hst, update_chart, hc, hr, hd, ht]
    rfl

theorem C8_refresh_schedule_witness :
    (∀ n : ℕ, allOk ((fun _ => envOk) n) = true) ∧
    (∃ st, runLoop (fun _ => envOk) initLoopState 2 = some (500 + 1000 * 2, st)) :=
  ⟨fun _ => rfl, C8_refresh_schedule (fun _ => envOk) initLoopState (fun _ => rfl) 2⟩
